import Mathlib

/-!
Verification of the LegalMind backend (src/backend/app.py).

The Flask routes are embedded as pure Lean functions over an explicit
database state.  External collaborators are parameters:
the PDF text extractor is an `Option String` (the return value of
`extract_text_from_pdf`, `none` when the library raised), and the Gemini
model service is a function from (model name, prompt) to a `ModelResult`
covering the three outcomes the code distinguishes (a successful
`response.text`, a `ValueError`, any other exception).

Every `db.session.commit()` of the source appends the then-committed
database snapshot to a `trace`, so claims about externally observable
intermediate states can be settled.  A commit in SQLAlchemy flushes all
pending session changes, so a `log_event` call made while a document
update is pending commits the event and the update together; the
embedding reproduces that by applying the pending update before the
event commit snapshot is taken.
-/

namespace LegalMind

/-- A row of the `Document` table: id, filename, status, nullable summary,
nullable full_text, nullable model_used. -/
structure Document where
  id : Nat
  filename : String
  status : String
  summary : Option String
  full_text : Option String
  model_used : Option String
deriving DecidableEq

/-- A row of the `HistoryEvent` table: id, event_type, document_name. -/
structure HistoryEvent where
  id : Nat
  event_type : String
  document_name : String
deriving DecidableEq

/-- The committed database state.  Rows are kept in insertion order;
`next_doc_id` and `next_event_id` model the autoincrement primary keys. -/
structure DB where
  documents : List Document
  events : List HistoryEvent
  next_doc_id : Nat
  next_event_id : Nat
deriving DecidableEq

/-- The `allowed_models` list from `get_gemini_model`. -/
def allowed_models : List String := ["gemini-1.5-pro", "gemini-1.5-flash"]

/-- The model-name normalization inside `get_gemini_model`: a name outside
the allow-list is replaced by the default before the model is constructed. -/
def normalize_model (model_name : String) : String :=
  if model_name ∈ allowed_models then model_name else "gemini-1.5-flash"

/-- Outcome of invoking the Gemini service (`get_gemini_model` followed by
content generation): success with the response text, a `ValueError`
(API key or model initialization problems), or any other exception. -/
inductive ModelResult where
  | success (text : String)
  | valueError (msg : String)
  | exception (msg : String)
deriving DecidableEq

/-- Embeds `log_event`: append a `HistoryEvent` row and commit. -/
def log_event (db : DB) (event_type : String) (document_name : String) : DB :=
  { db with
    events := db.events ++ [⟨db.next_event_id, event_type, document_name⟩],
    next_event_id := db.next_event_id + 1 }

/-- Python `str.strip()`: drop leading and trailing whitespace. -/
def strip (s : String) : String :=
  ⟨((s.data.dropWhile Char.isWhitespace).reverse.dropWhile Char.isWhitespace).reverse⟩

/-- Embeds `_build_analysis_prompt`: the fixed analysis template instantiated with
the document text and the user instruction. -/
def build_analysis_prompt (document_text : String) (user_prompt : String) : String :=
  "\n**Role:** You are an expert legal analyst AI specializing in **Indian Law**.\n"
  ++ "**Task:** Analyze the provided legal document from the perspective of **Indian law**. Your analysis must be clear, structured, and reference specific clauses. Cite relevant Indian statutes where applicable.\n\n"
  ++ "---\n**User\x27s Specific Request:** \"" ++ user_prompt ++ "\"\n"
  ++ "---\n**Document Text:**\n" ++ document_text ++ "\n"
  ++ "---\n**Your Structured Analysis (Indian Legal Context):**\n\n"
  ++ "### **1.Summary**\n"
  ++ "*(1.Provide a 1-4 sentence overview of the document\x27s core purpose with key details and risks,\n"
  ++ "* **Potential Risks: In1-3 sentence** *(Identify clauses on payment, penalties, Identify clauses on indemnification)*\n"
  ++ "* **General Advice:** *(e.g., \"Consult a lawyer practicing in India.\")*\n\n"
  ++ "### **2. Key Details at a Glance**\n"
  ++ "| Detail | Information Found (with Clause Reference) |\n"
  ++ "| :--- | :--- |\n"
  ++ "| **Governing Law** | *(e.g., Laws of India, Jurisdiction in Delhi (Clause 15.1))* |\n"
  ++ "| **Contract Term** | *(e.g., 24 months from effective date (Section 3))* |\n"
  ++ "| **Payment Amount**| *(e.g., â‚¹50,000 INR per month (Annexure A))* |\n"
  ++ "| **Notice Period** | *(e.g., 60 days for termination (Clause 12.2))* |\n\n"
  ++ "### **3. Key Parties & Their Roles**\n"
  ++ "* **Party A:** *(Identify the party and their role.)*\n"
  ++ "* **Party B:** *(Identify the other party and their role.)*\n\n"
  ++ "### **4. Key Clauses & Their Implications (under Indian Law)**\n"
  ++ "* **[Clause Name]:** *(Explain the meaning and impact of a major clause. Cite the source.)*\n\n"
  ++ "### **5. Potential Risks & Red Flags ðŸš© (Indian Context)**\n"
  ++ "* **Financial Risk:** *(Identify clauses on payment, penalties. Cite the source.)*\n"
  ++ "* **Legal/Liability Risk:** *(Identify clauses on indemnification, liability. Cite the source.)*\n\n"
  ++ "### **6. Dispute Resolution (Arbitration / Court Jurisdiction)**\n"
  ++ "* *(Explain how disputes are resolved. Cite Indian law, e.g., Arbitration & Conciliation Act, 1996.)*\n\n"
  ++ "### **7. Confidentiality & Intellectual Property**\n"
  ++ "* *(Highlight clauses on confidentiality and IP ownership. Note who owns the IP.)*\n\n"
  ++ "### **8. Compliance & Regulatory Requirements (Indian Laws)**\n"
  ++ "* *(Note compliance obligations with Indian laws like the Companies Act, 2013; Labour Laws; or the DPDP Act, 2023, if applicable.)*\n\n"
  ++ "### **9. Actionable Next Steps (Prioritized)**\n"
  ++ "1.  **Immediate Action:** *(Suggest the most critical next step.)*\n"
  ++ "2.  **Recommendation:** *(Suggest an important action.)*\n"
  ++ "3.  **General Advice:** *(e.g., \"Consult a lawyer practicing in India.\")*\n"

/-- Embeds `_build_qa_prompt`: the follow-up question template. -/
def build_qa_prompt (document_text : String) (question : String) : String :=
  "\n**Context:** You are an AI assistant answering questions about the following legal document. Your answers must be based *only* on the information contained within this document. If the answer is not in the document, say so.\n"
  ++ "**Document Text:**\n---\n" ++ document_text ++ "\n---\n"
  ++ "**User\x27s Question:** \"" ++ question ++ "\"\n"
  ++ "**Your Answer:**\n"

/-- The multipart form of a POST /simplify request: whether a `pdfFile`
part is present, its filename, and the optional `model` and `prompt`
form fields (`none` when the field is absent). -/
structure SimplifyRequest where
  hasPdfFile : Bool
  filename : String
  model : Option String
  prompt : Option String
deriving DecidableEq

/-- The JSON response of /simplify with its HTTP status class. -/
inductive SimplifyResponse where
  | ok (summary : String) (document_text : String)
  | badRequest (error : String)
  | serverError (error : String)
deriving DecidableEq

/-- Result of a /simplify request: the response, the final committed
database, the trace of committed snapshots (one per `db.session.commit()`,
in order), and the model name actually sent to the Gemini service
(`none` when no model call was attempted). -/
structure SimplifyResult where
  response : SimplifyResponse
  db : DB
  trace : List DB
  modelCalled : Option String
deriving DecidableEq

/-- Update the status and summary of the document row with the given id
(the `new_doc.status = ...; new_doc.summary = ...` mutations, which the
next session commit persists). -/
def update_doc (db : DB) (doc_id : Nat) (status : String) (summary : Option String) : DB :=
  { db with
    documents := db.documents.map fun d =>
      if d.id == doc_id then { d with status := status, summary := summary } else d }

/-- Embeds `simplify_document`, the POST /simplify route.  Here `extract` is the value
returned by `extract_text_from_pdf` on the uploaded stream; `gen` is the
Gemini service, queried at the effective (normalized) model name and the
built prompt. -/
def simplify_document (db0 : DB) (req : SimplifyRequest)
    (extract : Option String) (gen : String → String → ModelResult) : SimplifyResult :=
  if !req.hasPdfFile then
    ⟨.badRequest "No PDF file provided.", db0, [], none⟩
  else if req.filename == "" then
    ⟨.badRequest "No selected file.", db0, [], none⟩
  else
    let selected_model_name := req.model.getD "gemini-1.5-flash"
    let extract_failed : SimplifyResult :=
      let db1 := log_event db0 "TEXT_EXTRACT_FAIL" req.filename
      let failed_doc : Document :=
        ⟨db1.next_doc_id, req.filename, "Analysis Failed",
         some "Could not extract text from PDF.", none, some selected_model_name⟩
      let db2 := { db1 with
        documents := db1.documents ++ [failed_doc],
        next_doc_id := db1.next_doc_id + 1 }
      ⟨.badRequest "Could not extract text from the PDF.", db2, [db1, db2], none⟩
    match extract with
    | none => extract_failed
    | some document_text =>
      if document_text == "" || strip document_text == "" then extract_failed
      else
        let db1 := log_event db0 "UPLOAD_SUCCESS" req.filename
        let doc_id := db1.next_doc_id
        let new_doc : Document :=
          ⟨doc_id, req.filename, "In Progress", none, some document_text,
           some selected_model_name⟩
        let db2 := { db1 with
          documents := db1.documents ++ [new_doc],
          next_doc_id := doc_id + 1 }
        let prompt_from_user := req.prompt.getD "Provide a comprehensive analysis."
        let full_prompt := build_analysis_prompt document_text prompt_from_user
        let effective_model := normalize_model selected_model_name
        match gen effective_model full_prompt with
        | .success out =>
            let db3 := update_doc db2 doc_id "Analyzed" (some out)
            let db4 := log_event db3 "ANALYSIS_SUCCESS" req.filename
            ⟨.ok out document_text, db4, [db1, db2, db4, db4], some effective_model⟩
        | .valueError e =>
            let db3 := update_doc db2 doc_id "Analysis Failed" (some ("API Error: " ++ e))
            let db4 := log_event db3 "ANALYSIS_FAIL" req.filename
            ⟨.serverError ("AI model configuration error: " ++ e), db4,
             [db1, db2, db4, db4], some effective_model⟩
        | .exception e =>
            let db3 := update_doc db2 doc_id "Analysis Failed" (some ("Analysis failed: " ++ e))
            let db4 := log_event db3 "ANALYSIS_FAIL" req.filename
            ⟨.serverError "Failed to get a response from the AI model. Check server logs for details.",
             db4, [db1, db2, db4, db4], some effective_model⟩

/-- The JSON body of a POST /ask request; each field is `none` when the
key is absent from the JSON object. -/
structure AskBody where
  document_text : Option String
  question : Option String
  model : Option String
deriving DecidableEq

/-- The JSON response of /ask with its HTTP status class. -/
inductive AskResponse where
  | ok (answer : String)
  | badRequest (error : String)
  | serverError (error : String)
deriving DecidableEq

/-- Result of an /ask request (same shape as `SimplifyResult`). -/
structure AskResult where
  response : AskResponse
  db : DB
  trace : List DB
  modelCalled : Option String
deriving DecidableEq

/-- Embeds `ask_question`, the POST /ask route.  Here `data` is `none` when
`request.get_json()` yields no usable object (`not data`). -/
def ask_question (db : DB) (data : Option AskBody)
    (gen : String → String → ModelResult) : AskResult :=
  match data with
  | none => ⟨.badRequest "Missing document_text or question in request.", db, [], none⟩
  | some body =>
    match body.document_text, body.question with
    | none, _ => ⟨.badRequest "Missing document_text or question in request.", db, [], none⟩
    | some _, none => ⟨.badRequest "Missing document_text or question in request.", db, [], none⟩
    | some document_text, some question =>
      let selected_model_name := body.model.getD "gemini-1.5-flash"
      let qa_prompt := build_qa_prompt document_text question
      let effective_model := normalize_model selected_model_name
      match gen effective_model qa_prompt with
      | .success out => ⟨.ok out, db, [], some effective_model⟩
      | .valueError e =>
          ⟨.serverError ("AI model configuration error for chat: " ++ e), db, [],
           some effective_model⟩
      | .exception _ =>
          ⟨.serverError "Failed to get a response for your question. Check server logs for details.",
           db, [], some effective_model⟩

/-- The JSON response of DELETE /document/id. -/
inductive DeleteResponse where
  | ok (message : String)
  | notFound
deriving DecidableEq

/-- Result of a DELETE /document/id request. -/
structure DeleteResult where
  response : DeleteResponse
  db : DB
  trace : List DB
deriving DecidableEq

/-- Embeds `delete_document`, the DELETE /document/id route: `get_or_404`, then
delete + commit, then `log_event` (a second commit). -/
def delete_document (db : DB) (doc_id : Nat) : DeleteResult :=
  match db.documents.find? (fun d => d.id == doc_id) with
  | none => ⟨.notFound, db, []⟩
  | some doc =>
      let db1 := { db with documents := db.documents.filter fun d => !(d.id == doc_id) }
      let db2 := log_event db1 "DELETE_DOCUMENT" doc.filename
      ⟨.ok "Document deleted successfully.", db2, [db1, db2]⟩

/-- Embeds `get_documents`, the GET /documents route: a pure read of the
document rows (timestamps and their ordering are not modelled). -/
def get_documents (db : DB) : List Document := db.documents

/-- Well-formedness of a database state: every row id is below the
corresponding autoincrement counter, and document primary keys are
pairwise distinct. -/
def DB.wf (db : DB) : Bool :=
  db.documents.all (fun d => d.id < db.next_doc_id)
  && db.events.all (fun e => e.id < db.next_event_id)
  && decide (db.documents.map Document.id).Nodup

/-- The documented per-row invariant: status is one of the four lifecycle
states and summary is non-null exactly on the two terminal states. -/
def doc_ok (d : Document) : Bool :=
  (d.status == "Pending" || d.status == "In Progress" || d.status == "Analyzed"
    || d.status == "Analysis Failed")
  && (d.summary.isSome == (d.status == "Analyzed" || d.status == "Analysis Failed"))

/-- The per-row invariant holds of every persisted document. -/
def DB.inv (db : DB) : Bool := db.documents.all doc_ok

/-- Between two states, any surviving row keeps a full_text that was
already set: full_text is never cleared or changed once populated. -/
def full_text_preserved (db db2 : DB) : Prop :=
  ∀ d ∈ db.documents, ∀ d2 ∈ db2.documents,
    d2.id = d.id → d.full_text.isSome → d2.full_text = d.full_text

/-! ## Helper lemmas -/

/-- A status/summary update keyed to a fresh id leaves rows with smaller
ids untouched. -/
theorem map_update_fresh (docs : List Document) (n : Nat) (st : String) (sm : Option String)
    (h : ∀ d ∈ docs, d.id < n) :
    (docs.map fun d => if d.id == n then { d with status := st, summary := sm } else d)
      = docs := by
  induction docs with
  | nil => rfl
  | cons a l ih =>
      have ha : (a.id == n) = false :=
        beq_eq_false_iff_ne.mpr (Nat.ne_of_lt (h a (List.mem_cons_self a l)))
      have hl := ih fun d hd => h d (List.mem_cons_of_mem a hd)
      simp only [List.map_cons, ha, Bool.false_eq_true, if_false, hl]

/-- Propositional-equality variant of `map_update_fresh`, matching the
form `simp` normalizes the update lambda to. -/
theorem map_update_fresh_eq (docs : List Document) (n : Nat) (st : String) (sm : Option String)
    (h : ∀ d ∈ docs, d.id < n) :
    (docs.map fun d => if d.id = n then { d with status := st, summary := sm } else d)
      = docs := by
  induction docs with
  | nil => rfl
  | cons a l ih =>
      have ha : a.id ≠ n := Nat.ne_of_lt (h a (List.mem_cons_self a l))
      have hl := ih fun d hd => h d (List.mem_cons_of_mem a hd)
      simp only [List.map_cons, if_neg ha, hl]

/-- Unpack `DB.wf` into its three component facts. -/
theorem wf_elim {db : DB} (h : db.wf = true) :
    ((∀ d ∈ db.documents, d.id < db.next_doc_id)
      ∧ (∀ e ∈ db.events, e.id < db.next_event_id))
    ∧ (db.documents.map Document.id).Nodup := by
  simp only [DB.wf, Bool.and_eq_true, List.all_eq_true, decide_eq_true_eq] at h
  exact h

/-- In a well-formed database two document rows with the same id are the
same row. -/
theorem wf_id_inj {db : DB} (h : db.wf = true) {a b : Document}
    (ha : a ∈ db.documents) (hb : b ∈ db.documents) (hab : a.id = b.id) : a = b :=
  List.inj_on_of_nodup_map (wf_elim h).2 ha hb hab

/-- A concrete empty database used by the witnesses. -/
def dbEx : DB := ⟨[], [], 1, 1⟩

/-! ## Claims -/

/-- C1: for a /simplify submission where extraction succeeds (usable text)
and the model call succeeds, exactly one Document row is created, its
terminal status is Analyzed with summary equal to the model output,
exactly two events UPLOAD_SUCCESS then ANALYSIS_SUCCESS are appended
in that order, and the response carries the summary and the extracted
text. -/
theorem C1_simplify_success (db0 : DB) (req : SimplifyRequest) (t out : String)
    (gen : String → String → ModelResult)
    (hwf : db0.wf = true)
    (hfile : req.hasPdfFile = true)
    (hname : req.filename ≠ "")
    (htext : (t == "" || strip t == "") = false)
    (hgen : gen (normalize_model (req.model.getD "gemini-1.5-flash"))
        (build_analysis_prompt t (req.prompt.getD "Provide a comprehensive analysis."))
        = .success out) :
    (simplify_document db0 req (some t) gen).response = .ok out t ∧
    (simplify_document db0 req (some t) gen).db.documents
      = db0.documents ++ [⟨db0.next_doc_id, req.filename, "Analyzed", some out, some t,
          some (req.model.getD "gemini-1.5-flash")⟩] ∧
    (simplify_document db0 req (some t) gen).db.events
      = db0.events ++ [⟨db0.next_event_id, "UPLOAD_SUCCESS", req.filename⟩,
          ⟨db0.next_event_id + 1, "ANALYSIS_SUCCESS", req.filename⟩] := by
  have hdocs := (wf_elim hwf).1.1
  simp only [simplify_document, log_event, update_doc, hfile, Bool.not_true,
    Bool.false_eq_true, if_false, beq_eq_false_iff_ne.mpr hname, htext, hgen,
    List.map_append, List.map_cons, List.map_nil, beq_self_eq_true, if_true,
    List.append_assoc, List.singleton_append,
    map_update_fresh db0.documents db0.next_doc_id _ _ hdocs]
  exact ⟨trivial, trivial, trivial⟩

/-- Witness for C1 on a concrete run over the empty database. -/
theorem C1_simplify_success_witness :
    (simplify_document dbEx ⟨true, "a.pdf", none, none⟩ (some "hello")
        (fun _ _ => ModelResult.success "SUM")).response = .ok "SUM" "hello" ∧
    (simplify_document dbEx ⟨true, "a.pdf", none, none⟩ (some "hello")
        (fun _ _ => ModelResult.success "SUM")).db.documents
      = dbEx.documents ++ [⟨dbEx.next_doc_id, "a.pdf", "Analyzed", some "SUM", some "hello",
          some "gemini-1.5-flash"⟩] ∧
    (simplify_document dbEx ⟨true, "a.pdf", none, none⟩ (some "hello")
        (fun _ _ => ModelResult.success "SUM")).db.events
      = dbEx.events ++ [⟨dbEx.next_event_id, "UPLOAD_SUCCESS", "a.pdf"⟩,
          ⟨dbEx.next_event_id + 1, "ANALYSIS_SUCCESS", "a.pdf"⟩] :=
  C1_simplify_success dbEx ⟨true, "a.pdf", none, none⟩ "hello" "SUM"
    (fun _ _ => ModelResult.success "SUM") (by decide) rfl (by decide) (by decide) rfl

/-- C2: for a /simplify submission whose extraction yields null or
empty/whitespace-only text, exactly one Document row is created with
status Analysis Failed, the fixed summary and null full_text, exactly one
TEXT_EXTRACT_FAIL event is appended, a 400 response is returned, and no
model call is attempted. -/
theorem C2_extraction_failed (db0 : DB) (req : SimplifyRequest) (extract : Option String)
    (gen : String → String → ModelResult)
    (hfile : req.hasPdfFile = true)
    (hname : req.filename ≠ "")
    (hext : extract = none ∨ ∃ t, extract = some t ∧ (t == "" || strip t == "") = true) :
    (simplify_document db0 req extract gen).response
      = .badRequest "Could not extract text from the PDF." ∧
    (simplify_document db0 req extract gen).db.documents
      = db0.documents ++ [⟨db0.next_doc_id, req.filename, "Analysis Failed",
          some "Could not extract text from PDF.", none,
          some (req.model.getD "gemini-1.5-flash")⟩] ∧
    (simplify_document db0 req extract gen).db.events
      = db0.events ++ [⟨db0.next_event_id, "TEXT_EXTRACT_FAIL", req.filename⟩] ∧
    (simplify_document db0 req extract gen).modelCalled = none := by
  have hname2 := beq_eq_false_iff_ne.mpr hname
  rcases hext with h | ⟨t, ht, hcond⟩
  · subst h
    simp [simplify_document, log_event, hfile, hname2]
  · subst ht
    simp [simplify_document, log_event, hfile, hname2, hcond]

/-- Witness for C2 on a whitespace-only extraction over the empty
database (with an off-list model value supplied by the client). -/
theorem C2_extraction_failed_witness :
    (simplify_document dbEx ⟨true, "b.pdf", some "gpt-9", none⟩ (some " \n ")
        (fun _ _ => ModelResult.success "SUM")).response
      = .badRequest "Could not extract text from the PDF." ∧
    (simplify_document dbEx ⟨true, "b.pdf", some "gpt-9", none⟩ (some " \n ")
        (fun _ _ => ModelResult.success "SUM")).db.documents
      = dbEx.documents ++ [⟨dbEx.next_doc_id, "b.pdf", "Analysis Failed",
          some "Could not extract text from PDF.", none, some "gpt-9"⟩] ∧
    (simplify_document dbEx ⟨true, "b.pdf", some "gpt-9", none⟩ (some " \n ")
        (fun _ _ => ModelResult.success "SUM")).db.events
      = dbEx.events ++ [⟨dbEx.next_event_id, "TEXT_EXTRACT_FAIL", "b.pdf"⟩] ∧
    (simplify_document dbEx ⟨true, "b.pdf", some "gpt-9", none⟩ (some " \n ")
        (fun _ _ => ModelResult.success "SUM")).modelCalled = none :=
  C2_extraction_failed dbEx ⟨true, "b.pdf", some "gpt-9", none⟩ (some " \n ")
    (fun _ _ => ModelResult.success "SUM") rfl (by decide)
    (Or.inr ⟨" \n ", rfl, by decide⟩)

/-- C3: for a /simplify submission where extraction succeeds but the model
call fails (ValueError or any other exception), the Document row
transitions from In Progress (an intermediate committed state) to
Analysis Failed, its summary embeds the error text, events UPLOAD_SUCCESS
then ANALYSIS_FAIL are appended in that order, and a 500 response is
returned. -/
theorem C3_model_failure (db0 : DB) (req : SimplifyRequest) (t e : String)
    (gen : String → String → ModelResult)
    (hwf : db0.wf = true)
    (hfile : req.hasPdfFile = true)
    (hname : req.filename ≠ "")
    (htext : (t == "" || strip t == "") = false)
    (hgen : gen (normalize_model (req.model.getD "gemini-1.5-flash"))
        (build_analysis_prompt t (req.prompt.getD "Provide a comprehensive analysis."))
        = .valueError e
      ∨ gen (normalize_model (req.model.getD "gemini-1.5-flash"))
        (build_analysis_prompt t (req.prompt.getD "Provide a comprehensive analysis."))
        = .exception e) :
    (∃ msg, (simplify_document db0 req (some t) gen).response = .serverError msg) ∧
    (∃ s, (simplify_document db0 req (some t) gen).db.documents
        = db0.documents ++ [⟨db0.next_doc_id, req.filename, "Analysis Failed", some s, some t,
            some (req.model.getD "gemini-1.5-flash")⟩]
      ∧ ∃ p, s = p ++ e) ∧
    (simplify_document db0 req (some t) gen).db.events
      = db0.events ++ [⟨db0.next_event_id, "UPLOAD_SUCCESS", req.filename⟩,
          ⟨db0.next_event_id + 1, "ANALYSIS_FAIL", req.filename⟩] ∧
    (simplify_document db0 req (some t) gen).trace[1]?
      = some ⟨db0.documents ++ [⟨db0.next_doc_id, req.filename, "In Progress", none, some t,
            some (req.model.getD "gemini-1.5-flash")⟩],
          db0.events ++ [⟨db0.next_event_id, "UPLOAD_SUCCESS", req.filename⟩],
          db0.next_doc_id + 1, db0.next_event_id + 1⟩ := by
  have hdocs := (wf_elim hwf).1.1
  have hname2 := beq_eq_false_iff_ne.mpr hname
  rcases hgen with hg | hg
  · simp only [simplify_document, log_event, update_doc, hfile, Bool.not_true,
      Bool.false_eq_true, if_false, hname2, htext, hg, List.map_append, List.map_cons,
      List.map_nil, beq_self_eq_true, if_true, List.append_assoc, List.singleton_append,
      map_update_fresh db0.documents db0.next_doc_id _ _ hdocs]
    exact ⟨⟨_, rfl⟩, ⟨_, rfl, "API Error: ", rfl⟩, trivial, rfl⟩
  · simp only [simplify_document, log_event, update_doc, hfile, Bool.not_true,
      Bool.false_eq_true, if_false, hname2, htext, hg, List.map_append, List.map_cons,
      List.map_nil, beq_self_eq_true, if_true, List.append_assoc, List.singleton_append,
      map_update_fresh db0.documents db0.next_doc_id _ _ hdocs]
    exact ⟨⟨_, rfl⟩, ⟨_, rfl, "Analysis failed: ", rfl⟩, trivial, rfl⟩

/-- Witness for C3 on a concrete failing model call over the empty
database. -/
theorem C3_model_failure_witness :
    (∃ msg, (simplify_document dbEx ⟨true, "a.pdf", none, none⟩ (some "hello")
        (fun _ _ => ModelResult.exception "boom")).response = .serverError msg) ∧
    (∃ s, (simplify_document dbEx ⟨true, "a.pdf", none, none⟩ (some "hello")
        (fun _ _ => ModelResult.exception "boom")).db.documents
        = dbEx.documents ++ [⟨dbEx.next_doc_id, "a.pdf", "Analysis Failed", some s, some "hello",
            some "gemini-1.5-flash"⟩]
      ∧ ∃ p, s = p ++ "boom") ∧
    (simplify_document dbEx ⟨true, "a.pdf", none, none⟩ (some "hello")
        (fun _ _ => ModelResult.exception "boom")).db.events
      = dbEx.events ++ [⟨dbEx.next_event_id, "UPLOAD_SUCCESS", "a.pdf"⟩,
          ⟨dbEx.next_event_id + 1, "ANALYSIS_FAIL", "a.pdf"⟩] ∧
    (simplify_document dbEx ⟨true, "a.pdf", none, none⟩ (some "hello")
        (fun _ _ => ModelResult.exception "boom")).trace[1]?
      = some ⟨dbEx.documents ++ [⟨dbEx.next_doc_id, "a.pdf", "In Progress", none, some "hello",
            some "gemini-1.5-flash"⟩],
          dbEx.events ++ [⟨dbEx.next_event_id, "UPLOAD_SUCCESS", "a.pdf"⟩],
          dbEx.next_doc_id + 1, dbEx.next_event_id + 1⟩ :=
  C3_model_failure dbEx ⟨true, "a.pdf", none, none⟩ "hello" "boom"
    (fun _ _ => ModelResult.exception "boom") (by decide) rfl (by decide) (by decide)
    (Or.inr rfl)

/-- Master path lemma: every /simplify run that passes the multipart
validation appends exactly one Document row, carrying the submitted
filename, the verbatim selected model name, a fresh id and a row
satisfying the per-row invariant; the model, when called at all, is
called at the normalized name. -/
theorem simplify_row (db0 : DB) (req : SimplifyRequest) (extract : Option String)
    (gen : String → String → ModelResult)
    (hwf : db0.wf = true)
    (hfile : req.hasPdfFile = true)
    (hname : req.filename ≠ "") :
    ∃ d, (simplify_document db0 req extract gen).db.documents = db0.documents ++ [d]
      ∧ d.id = db0.next_doc_id
      ∧ d.filename = req.filename
      ∧ d.model_used = some (req.model.getD "gemini-1.5-flash")
      ∧ doc_ok d = true
      ∧ ((simplify_document db0 req extract gen).modelCalled = none
        ∨ (simplify_document db0 req extract gen).modelCalled
          = some (normalize_model (req.model.getD "gemini-1.5-flash"))) := by
  have hdocs := (wf_elim hwf).1.1
  have hname2 := beq_eq_false_iff_ne.mpr hname
  match extract with
  | none =>
      refine ⟨⟨db0.next_doc_id, req.filename, "Analysis Failed",
          some "Could not extract text from PDF.", none,
          some (req.model.getD "gemini-1.5-flash")⟩, ?_, rfl, rfl, rfl, rfl, Or.inl ?_⟩ <;>
        simp [simplify_document, log_event, hfile, hname2]
  | some t =>
      by_cases hc : (t == "" || strip t == "") = true
      · refine ⟨⟨db0.next_doc_id, req.filename, "Analysis Failed",
            some "Could not extract text from PDF.", none,
            some (req.model.getD "gemini-1.5-flash")⟩, ?_, rfl, rfl, rfl, rfl, Or.inl ?_⟩ <;>
          simp [simplify_document, log_event, hfile, hname2, hc]
      · have hc2 : (t == "" || strip t == "") = false := by
          simpa using hc
        cases hg : gen (normalize_model (req.model.getD "gemini-1.5-flash"))
            (build_analysis_prompt t (req.prompt.getD "Provide a comprehensive analysis.")) with
        | success out =>
            refine ⟨⟨db0.next_doc_id, req.filename, "Analyzed", some out, some t,
                some (req.model.getD "gemini-1.5-flash")⟩, ?_, rfl, rfl, rfl, rfl,
                Or.inr ?_⟩ <;>
              simp [simplify_document, log_event, update_doc, hfile, hname2, hc2, hg,
                map_update_fresh db0.documents db0.next_doc_id _ _ hdocs,
                map_update_fresh_eq db0.documents db0.next_doc_id _ _ hdocs]
        | valueError e =>
            refine ⟨⟨db0.next_doc_id, req.filename, "Analysis Failed",
                some ("API Error: " ++ e), some t,
                some (req.model.getD "gemini-1.5-flash")⟩, ?_, rfl, rfl, rfl, rfl,
                Or.inr ?_⟩ <;>
              simp [simplify_document, log_event, update_doc, hfile, hname2, hc2, hg,
                map_update_fresh db0.documents db0.next_doc_id _ _ hdocs,
                map_update_fresh_eq db0.documents db0.next_doc_id _ _ hdocs]
        | exception e =>
            refine ⟨⟨db0.next_doc_id, req.filename, "Analysis Failed",
                some ("Analysis failed: " ++ e), some t,
                some (req.model.getD "gemini-1.5-flash")⟩, ?_, rfl, rfl, rfl, rfl,
                Or.inr ?_⟩ <;>
              simp [simplify_document, log_event, update_doc, hfile, hname2, hc2, hg,
                map_update_fresh db0.documents db0.next_doc_id _ _ hdocs,
                map_update_fresh_eq db0.documents db0.next_doc_id _ _ hdocs]

/-- C4 counterexample: a /simplify request with no pdfFile part receives
a failure (400) response, yet no Document row is persisted (the
database is left with no documents at all). -/
theorem C4_counterexample :
    (simplify_document dbEx ⟨false, "a.pdf", none, none⟩ none
        (fun _ _ => ModelResult.success "SUM")).response
      = .badRequest "No PDF file provided." ∧
    (simplify_document dbEx ⟨false, "a.pdf", none, none⟩ none
        (fun _ _ => ModelResult.success "SUM")).db.documents = [] := by
  decide

/-- C4 amended: for every /simplify request that passes the initial
multipart validation (a pdfFile part is present and its filename is
non-empty), a Document row recording the attempt (bearing the submitted
filename) is persisted, regardless of outcome — in particular on every
failure response.  Requests rejected by the multipart validation itself
persist nothing. -/
theorem C4_failure_row (db0 : DB) (req : SimplifyRequest) (extract : Option String)
    (gen : String → String → ModelResult)
    (hwf : db0.wf = true)
    (hfile : req.hasPdfFile = true)
    (hname : req.filename ≠ "") :
    ∃ d, (simplify_document db0 req extract gen).db.documents = db0.documents ++ [d]
      ∧ d.filename = req.filename := by
  obtain ⟨d, h1, _, h3, _⟩ := simplify_row db0 req extract gen hwf hfile hname
  exact ⟨d, h1, h3⟩

/-- Witness for the amended C4 on a concrete failing run. -/
theorem C4_failure_row_witness :
    ∃ d, (simplify_document dbEx ⟨true, "a.pdf", none, none⟩ none
        (fun _ _ => ModelResult.success "SUM")).db.documents = dbEx.documents ++ [d]
      ∧ d.filename = "a.pdf" :=
  C4_failure_row dbEx ⟨true, "a.pdf", none, none⟩ none
    (fun _ _ => ModelResult.success "SUM") (by decide) rfl (by decide)

/-- Appending one fresh-id row preserves full_text of all earlier rows. -/
theorem ftp_append (db0 : DB) (hwf : db0.wf = true) (d1 : Document)
    (hid : db0.next_doc_id ≤ d1.id) (db2 : DB)
    (hdocs : db2.documents = db0.documents ++ [d1]) : full_text_preserved db0 db2 := by
  intro d hd d2 hd2 hide _
  rw [hdocs, List.mem_append] at hd2
  rcases hd2 with h2 | h2
  · rw [wf_id_inj hwf h2 hd hide]
  · simp only [List.mem_singleton] at h2
    subst h2
    have := (wf_elim hwf).1.1 d hd
    omega

/-- Keeping only a subset of the rows unchanged preserves full_text. -/
theorem ftp_sub (db0 : DB) (hwf : db0.wf = true) (db2 : DB)
    (hsub : ∀ d ∈ db2.documents, d ∈ db0.documents) : full_text_preserved db0 db2 := by
  intro d hd d2 hd2 hide _
  rw [wf_id_inj hwf (hsub d2 hd2) hd hide]

/-- Appending one row satisfying the per-row invariant preserves `DB.inv`. -/
theorem inv_append (db0 : DB) (hinv : db0.inv = true) (d : Document)
    (hd : doc_ok d = true) (db2 : DB)
    (hdocs : db2.documents = db0.documents ++ [d]) : db2.inv = true := by
  simp only [DB.inv, List.all_eq_true] at *
  rw [hdocs]
  intro x hx
  rcases List.mem_append.mp hx with h | h
  · exact hinv x h
  · simp only [List.mem_singleton] at h
    subst h
    exact hd

/-- Keeping only a subset of the rows preserves `DB.inv`. -/
theorem inv_sub (db0 : DB) (hinv : db0.inv = true) (db2 : DB)
    (hsub : ∀ d ∈ db2.documents, d ∈ db0.documents) : db2.inv = true := by
  simp only [DB.inv, List.all_eq_true] at *
  exact fun d hd => hinv d (hsub d hd)

/-- C5: after any /simplify submission, any delete and any listing, every
persisted Document has a status among the four lifecycle states with
summary non-null exactly on the terminal states, and a full_text that was
already set is never cleared or changed. -/
theorem C5_invariants (db0 : DB) (req : SimplifyRequest) (extract : Option String)
    (gen : String → String → ModelResult) (doc_id : Nat)
    (hwf : db0.wf = true) (hinv : db0.inv = true) :
    ((simplify_document db0 req extract gen).db.inv = true
      ∧ full_text_preserved db0 (simplify_document db0 req extract gen).db)
    ∧ ((delete_document db0 doc_id).db.inv = true
      ∧ full_text_preserved db0 (delete_document db0 doc_id).db)
    ∧ ∀ d ∈ get_documents db0, doc_ok d = true := by
  refine ⟨?_, ?_, ?_⟩
  · by_cases hfile : req.hasPdfFile = true
    · by_cases hname : req.filename = ""
      · have hdb : (simplify_document db0 req extract gen).db = db0 := by
          simp [simplify_document, hfile, hname]
        rw [hdb]
        exact ⟨hinv, ftp_sub db0 hwf db0 fun d hd => hd⟩
      · obtain ⟨d, h1, h2, _, _, h5, _⟩ := simplify_row db0 req extract gen hwf hfile hname
        exact ⟨inv_append db0 hinv d h5 _ h1, ftp_append db0 hwf d (le_of_eq h2.symm) _ h1⟩
    · have hf : req.hasPdfFile = false := by simpa using hfile
      have hdb : (simplify_document db0 req extract gen).db = db0 := by
        simp [simplify_document, hf]
      rw [hdb]
      exact ⟨hinv, ftp_sub db0 hwf db0 fun d hd => hd⟩
  · cases hfind : db0.documents.find? (fun d => d.id == doc_id) with
    | none =>
        have hdb : (delete_document db0 doc_id).db = db0 := by
          simp [delete_document, hfind]
        rw [hdb]
        exact ⟨hinv, ftp_sub db0 hwf db0 fun d hd => hd⟩
    | some doc =>
        have hdocs : (delete_document db0 doc_id).db.documents
            = db0.documents.filter (fun d => !(d.id == doc_id)) := by
          simp [delete_document, hfind, log_event]
        refine ⟨inv_sub db0 hinv _ ?_, ftp_sub db0 hwf _ ?_⟩ <;>
          · rw [hdocs]
            intro d hd
            exact (List.mem_filter.mp hd).1
  · simp only [DB.inv, List.all_eq_true] at hinv
    exact fun d hd => hinv d hd

/-- Witness for C5 on a concrete database holding one analyzed row. -/
theorem C5_invariants_witness :
    ((simplify_document ⟨[⟨1, "old.pdf", "Analyzed", some "s", some "txt", none⟩], [], 2, 1⟩
        ⟨true, "a.pdf", none, none⟩ (some "hello")
        (fun _ _ => ModelResult.success "SUM")).db.inv = true
      ∧ full_text_preserved ⟨[⟨1, "old.pdf", "Analyzed", some "s", some "txt", none⟩], [], 2, 1⟩
        (simplify_document ⟨[⟨1, "old.pdf", "Analyzed", some "s", some "txt", none⟩], [], 2, 1⟩
          ⟨true, "a.pdf", none, none⟩ (some "hello")
          (fun _ _ => ModelResult.success "SUM")).db)
    ∧ ((delete_document ⟨[⟨1, "old.pdf", "Analyzed", some "s", some "txt", none⟩], [], 2, 1⟩ 1).db.inv = true
      ∧ full_text_preserved ⟨[⟨1, "old.pdf", "Analyzed", some "s", some "txt", none⟩], [], 2, 1⟩
        (delete_document ⟨[⟨1, "old.pdf", "Analyzed", some "s", some "txt", none⟩], [], 2, 1⟩ 1).db)
    ∧ ∀ d ∈ get_documents ⟨[⟨1, "old.pdf", "Analyzed", some "s", some "txt", none⟩], [], 2, 1⟩,
        doc_ok d = true :=
  C5_invariants ⟨[⟨1, "old.pdf", "Analyzed", some "s", some "txt", none⟩], [], 2, 1⟩
    ⟨true, "a.pdf", none, none⟩ (some "hello") (fun _ _ => ModelResult.success "SUM") 1
    (by decide) (by decide)

/-- C6 counterexample: an /ask request with a present-but-empty
document_text is not rejected — it succeeds (no 400) and a model call is
made, contradicting the claimed validation of non-emptiness. -/
theorem C6_counterexample :
    (ask_question dbEx (some ⟨some "", some "q", none⟩)
        (fun _ _ => ModelResult.success "ANS")).response = .ok "ANS" ∧
    (ask_question dbEx (some ⟨some "", some "q", none⟩)
        (fun _ _ => ModelResult.success "ANS")).modelCalled = some "gemini-1.5-flash" := by
  exact ⟨rfl, by decide⟩

/-- C6 amended: an /ask request whose body is missing, or lacks the
document_text key or the question key, fails with the 400 validation
error and makes no model call; present-but-empty values are accepted and
forwarded to the model. -/
theorem C6_missing_keys (db : DB) (data : Option AskBody)
    (gen : String → String → ModelResult)
    (h : data = none
      ∨ ∃ b, data = some b ∧ (b.document_text = none ∨ b.question = none)) :
    (ask_question db data gen).response
      = .badRequest "Missing document_text or question in request." ∧
    (ask_question db data gen).modelCalled = none := by
  rcases h with h | ⟨b, hb, hnone⟩
  · subst h
    exact ⟨rfl, rfl⟩
  · subst hb
    rcases b with ⟨dt, q, m⟩
    rcases dt with _ | dt
    · exact ⟨rfl, rfl⟩
    · rcases hnone with h | h
      · exact Option.noConfusion h
      · have hq : q = none := h
        subst hq
        exact ⟨rfl, rfl⟩

/-- Witness for the amended C6 at a body lacking the question key. -/
theorem C6_missing_keys_witness :
    (ask_question dbEx (some ⟨some "doc", none, none⟩)
        (fun _ _ => ModelResult.success "ANS")).response
      = .badRequest "Missing document_text or question in request." ∧
    (ask_question dbEx (some ⟨some "doc", none, none⟩)
        (fun _ _ => ModelResult.success "ANS")).modelCalled = none :=
  C6_missing_keys dbEx (some ⟨some "doc", none, none⟩)
    (fun _ _ => ModelResult.success "ANS")
    (Or.inr ⟨⟨some "doc", none, none⟩, rfl, Or.inr rfl⟩)

/-- C7: /ask never touches the Document Store or the History Log — the
database is returned unchanged and no commit (observable snapshot) is
performed, whatever the request body and the model outcome. -/
theorem C7_ask_no_persistence (db : DB) (data : Option AskBody)
    (gen : String → String → ModelResult) :
    (ask_question db data gen).db = db ∧ (ask_question db data gen).trace = [] := by
  rcases data with _ | ⟨dt, q, m⟩
  · exact ⟨rfl, rfl⟩
  · rcases dt with _ | dt
    · exact ⟨rfl, rfl⟩
    · rcases q with _ | q
      · exact ⟨rfl, rfl⟩
      · rcases hg : gen (normalize_model (m.getD "gemini-1.5-flash")) (build_qa_prompt dt q)
            with _ | _ | _ <;>
          constructor <;> simp [ask_question, hg]

/-- /simplify behaves identically (response and model actually called)
for two client model values with the same normalization; only the stored
model_used can differ. -/
theorem simplify_model_indep (db : DB) (hf : Bool) (fn : String) (pr : Option String)
    (extract : Option String) (gen : String → String → ModelResult) (m1 m2 : String)
    (h : normalize_model m1 = normalize_model m2) :
    (simplify_document db ⟨hf, fn, some m1, pr⟩ extract gen).response
      = (simplify_document db ⟨hf, fn, some m2, pr⟩ extract gen).response
    ∧ (simplify_document db ⟨hf, fn, some m1, pr⟩ extract gen).modelCalled
      = (simplify_document db ⟨hf, fn, some m2, pr⟩ extract gen).modelCalled := by
  cases hf
  · exact ⟨rfl, rfl⟩
  · by_cases hfn : (fn == "") = true
    · constructor <;> simp [simplify_document, hfn]
    · have hfn2 : (fn == "") = false := by simpa using hfn
      rcases extract with _ | t
      · constructor <;> simp [simplify_document, hfn2]
      · by_cases hc : (t == "" || strip t == "") = true
        · constructor <;> simp [simplify_document, hfn2, hc]
        · have hc2 : (t == "" || strip t == "") = false := by simpa using hc
          rcases hg : gen (normalize_model m2)
              (build_analysis_prompt t (pr.getD "Provide a comprehensive analysis."))
              with _ | _ | _ <;>
            constructor <;> simp [simplify_document, hfn2, hc2, h, hg]

/-- /ask behaves identically for two client model values with the same
normalization. -/
theorem ask_model_indep (db : DB) (dt q : Option String)
    (gen : String → String → ModelResult) (m1 m2 : String)
    (h : normalize_model m1 = normalize_model m2) :
    (ask_question db (some ⟨dt, q, some m1⟩) gen).response
      = (ask_question db (some ⟨dt, q, some m2⟩) gen).response
    ∧ (ask_question db (some ⟨dt, q, some m1⟩) gen).modelCalled
      = (ask_question db (some ⟨dt, q, some m2⟩) gen).modelCalled := by
  rcases dt with _ | dt
  · exact ⟨rfl, rfl⟩
  · rcases q with _ | q
    · exact ⟨rfl, rfl⟩
    · rcases hg : gen (normalize_model m2) (build_qa_prompt dt q) with _ | _ | _ <;>
        constructor <;> simp [ask_question, h, hg]

/-- C8: a model identifier outside the two-element allow-list never
causes a /simplify or /ask request to fail — it is silently replaced by
the default before any model call: the normalization maps it to
gemini-1.5-flash, and the request behaves exactly as if the default had
been supplied (same response, same model actually invoked). -/
theorem C8_allowlist_fallback (db : DB) (req : SimplifyRequest) (extract : Option String)
    (gen : String → String → ModelResult) (body : AskBody) (m : String)
    (hm : m ∉ allowed_models) :
    normalize_model m = "gemini-1.5-flash" ∧
    (simplify_document db { req with model := some m } extract gen).response
      = (simplify_document db { req with model := some "gemini-1.5-flash" } extract gen).response ∧
    (simplify_document db { req with model := some m } extract gen).modelCalled
      = (simplify_document db { req with model := some "gemini-1.5-flash" } extract gen).modelCalled ∧
    (ask_question db (some { body with model := some m }) gen).response
      = (ask_question db (some { body with model := some "gemini-1.5-flash" }) gen).response ∧
    (ask_question db (some { body with model := some m }) gen).modelCalled
      = (ask_question db (some { body with model := some "gemini-1.5-flash" }) gen).modelCalled := by
  have hnorm : normalize_model m = "gemini-1.5-flash" := by
    simp [normalize_model, hm]
  have heq : normalize_model m = normalize_model "gemini-1.5-flash" := by
    rw [hnorm]
    decide
  rcases req with ⟨hf, fn, mo, pr⟩
  rcases body with ⟨dt, q, bm⟩
  obtain ⟨hs1, hs2⟩ := simplify_model_indep db hf fn pr extract gen m "gemini-1.5-flash" heq
  obtain ⟨ha1, ha2⟩ := ask_model_indep db dt q gen m "gemini-1.5-flash" heq
  exact ⟨hnorm, hs1, hs2, ha1, ha2⟩

/-- Witness for C8 at the off-list model value gpt-4 on a concrete run. -/
theorem C8_allowlist_fallback_witness :
    normalize_model "gpt-4" = "gemini-1.5-flash" ∧
    (simplify_document dbEx ⟨true, "a.pdf", some "gpt-4", none⟩ (some "hello")
        (fun _ _ => ModelResult.success "SUM")).response
      = (simplify_document dbEx ⟨true, "a.pdf", some "gemini-1.5-flash", none⟩ (some "hello")
        (fun _ _ => ModelResult.success "SUM")).response ∧
    (simplify_document dbEx ⟨true, "a.pdf", some "gpt-4", none⟩ (some "hello")
        (fun _ _ => ModelResult.success "SUM")).modelCalled
      = (simplify_document dbEx ⟨true, "a.pdf", some "gemini-1.5-flash", none⟩ (some "hello")
        (fun _ _ => ModelResult.success "SUM")).modelCalled ∧
    (ask_question dbEx (some ⟨some "doc", some "q", some "gpt-4"⟩)
        (fun _ _ => ModelResult.success "SUM")).response
      = (ask_question dbEx (some ⟨some "doc", some "q", some "gemini-1.5-flash"⟩)
        (fun _ _ => ModelResult.success "SUM")).response ∧
    (ask_question dbEx (some ⟨some "doc", some "q", some "gpt-4"⟩)
        (fun _ _ => ModelResult.success "SUM")).modelCalled
      = (ask_question dbEx (some ⟨some "doc", some "q", some "gemini-1.5-flash"⟩)
        (fun _ _ => ModelResult.success "SUM")).modelCalled :=
  C8_allowlist_fallback dbEx ⟨true, "a.pdf", none, none⟩ (some "hello")
    (fun _ _ => ModelResult.success "SUM") ⟨some "doc", some "q", none⟩ "gpt-4"
    (by decide)

/-- C9 counterexample: on an extraction-failure /simplify run, the first
committed observable state already contains the TEXT_EXTRACT_FAIL
history event while containing no document row at all, although the run
does persist the corresponding Document afterwards — the history event
is externally observable before its document mutation commits. -/
theorem C9_counterexample :
    (simplify_document dbEx ⟨true, "a.pdf", none, none⟩ none
        (fun _ _ => ModelResult.success "SUM")).trace[0]?
      = some ⟨[], [⟨1, "TEXT_EXTRACT_FAIL", "a.pdf"⟩], 1, 2⟩ ∧
    (simplify_document dbEx ⟨true, "a.pdf", none, none⟩ none
        (fun _ _ => ModelResult.success "SUM")).db.documents
      = [⟨1, "a.pdf", "Analysis Failed", some "Could not extract text from PDF.", none,
          some "gemini-1.5-flash"⟩] := by
  decide

/-- C10: the model_used stored on the persisted row is the verbatim client value (or
the default when the form field is absent), on every path including
extraction failure, while the model actually invoked — when one is
invoked at all — is the normalized name. -/
theorem C10_model_used_verbatim (db0 : DB) (req : SimplifyRequest) (extract : Option String)
    (gen : String → String → ModelResult)
    (hwf : db0.wf = true)
    (hfile : req.hasPdfFile = true)
    (hname : req.filename ≠ "") :
    ∃ d, (simplify_document db0 req extract gen).db.documents = db0.documents ++ [d]
      ∧ d.model_used = some (req.model.getD "gemini-1.5-flash")
      ∧ ((simplify_document db0 req extract gen).modelCalled = none
        ∨ (simplify_document db0 req extract gen).modelCalled
          = some (normalize_model (req.model.getD "gemini-1.5-flash"))) := by
  obtain ⟨d, h1, _, _, h4, _, h6⟩ := simplify_row db0 req extract gen hwf hfile hname
  exact ⟨d, h1, h4, h6⟩

/-- Witness for C10: an off-list model value on the extraction-failure
path is stored verbatim while no model call occurs. -/
theorem C10_model_used_verbatim_witness :
    ∃ d, (simplify_document dbEx ⟨true, "a.pdf", some "gpt-9", none⟩ none
        (fun _ _ => ModelResult.success "SUM")).db.documents = dbEx.documents ++ [d]
      ∧ d.model_used = some "gpt-9"
      ∧ ((simplify_document dbEx ⟨true, "a.pdf", some "gpt-9", none⟩ none
          (fun _ _ => ModelResult.success "SUM")).modelCalled = none
        ∨ (simplify_document dbEx ⟨true, "a.pdf", some "gpt-9", none⟩ none
          (fun _ _ => ModelResult.success "SUM")).modelCalled
          = some (normalize_model "gpt-9")) :=
  C10_model_used_verbatim dbEx ⟨true, "a.pdf", some "gpt-9", none⟩ none
    (fun _ _ => ModelResult.success "SUM") (by decide) rfl (by decide)

/-- C9 amended: the actual commit/event ordering of the code.  (a) On
delete, the row deletion commits strictly before the DELETE_DOCUMENT
event.  (b) On extraction failure the TEXT_EXTRACT_FAIL event commits
strictly before the failed Document row, and (c) on successful
extraction the UPLOAD_SUCCESS event commits strictly before the In
Progress row — for the creation mutations the claimed order is reversed.
(d) The terminal analysis update and its ANALYSIS_SUCCESS/ANALYSIS_FAIL
event commit in the same transaction: no observable state contains that
event (the one with id next_event_id + 1) without a committed terminal
summary on the new row. -/
theorem C9_commit_order (db0 : DB) (req : SimplifyRequest) (extract : Option String)
    (t : String) (gen : String → String → ModelResult) (doc_id : Nat) (doc : Document)
    (hwf : db0.wf = true)
    (hfile : req.hasPdfFile = true)
    (hname : req.filename ≠ "")
    (hext : extract = none ∨ ∃ u, extract = some u ∧ (u == "" || strip u == "") = true)
    (htext : (t == "" || strip t == "") = false)
    (hfind : db0.documents.find? (fun d => d.id == doc_id) = some doc) :
    (delete_document db0 doc_id).trace
      = [⟨db0.documents.filter (fun d => !(d.id == doc_id)), db0.events,
          db0.next_doc_id, db0.next_event_id⟩,
         (delete_document db0 doc_id).db] ∧
    (simplify_document db0 req extract gen).trace[0]?
      = some ⟨db0.documents,
          db0.events ++ [⟨db0.next_event_id, "TEXT_EXTRACT_FAIL", req.filename⟩],
          db0.next_doc_id, db0.next_event_id + 1⟩ ∧
    (simplify_document db0 req (some t) gen).trace[0]?
      = some ⟨db0.documents,
          db0.events ++ [⟨db0.next_event_id, "UPLOAD_SUCCESS", req.filename⟩],
          db0.next_doc_id, db0.next_event_id + 1⟩ ∧
    ∀ s ∈ (simplify_document db0 req (some t) gen).trace, ∀ ev ∈ s.events,
      ev.id = db0.next_event_id + 1 →
      ∃ d ∈ s.documents, d.id = db0.next_doc_id ∧ d.summary.isSome = true := by
  have hname2 := beq_eq_false_iff_ne.mpr hname
  have hdocs := (wf_elim hwf).1.1
  have hev0 := (wf_elim hwf).1.2
  refine ⟨?_, ?_, ?_, ?_⟩
  · simp [delete_document, hfind, log_event]
  · rcases hext with h | ⟨u, hu, hcu⟩
    · subst h
      simp [simplify_document, log_event, hfile, hname2]
    · subst hu
      simp [simplify_document, log_event, hfile, hname2, hcu]
  · rcases hg : gen (normalize_model (req.model.getD "gemini-1.5-flash"))
        (build_analysis_prompt t (req.prompt.getD "Provide a comprehensive analysis."))
        with out | e | e <;>
      simp [simplify_document, log_event, hfile, hname2, htext, hg]
  · rcases hg : gen (normalize_model (req.model.getD "gemini-1.5-flash"))
        (build_analysis_prompt t (req.prompt.getD "Provide a comprehensive analysis."))
        with out | e | e <;>
    · intro s hs ev hevs hid
      simp only [simplify_document, log_event, update_doc, hfile, Bool.not_true,
        Bool.false_eq_true, if_false, hname2, htext, hg, List.map_append, List.map_cons,
        List.map_nil, beq_self_eq_true, if_true, List.append_assoc, List.singleton_append,
        map_update_fresh db0.documents db0.next_doc_id _ _ hdocs,
        List.mem_cons, List.not_mem_nil, or_false] at hs
      rcases hs with rfl | rfl | rfl | rfl
      · simp only [List.mem_append, List.mem_singleton] at hevs
        rcases hevs with h | rfl
        · have h2 := hev0 ev h
          exfalso
          omega
        · exfalso
          have h3 : db0.next_event_id = db0.next_event_id + 1 := hid
          omega
      · simp only [List.mem_append, List.mem_singleton] at hevs
        rcases hevs with h | rfl
        · have h2 := hev0 ev h
          exfalso
          omega
        · exfalso
          have h3 : db0.next_event_id = db0.next_event_id + 1 := hid
          omega
      · exact ⟨_, List.mem_append_right _ (List.mem_singleton_self _), rfl, rfl⟩
      · exact ⟨_, List.mem_append_right _ (List.mem_singleton_self _), rfl, rfl⟩

/-- Witness for the amended C9 on a concrete database with one row. -/
theorem C9_commit_order_witness :
    (delete_document ⟨[⟨1, "old.pdf", "Analyzed", some "s", some "txt", none⟩], [], 2, 1⟩ 1).trace
      = [⟨[], [], 2, 1⟩,
         (delete_document ⟨[⟨1, "old.pdf", "Analyzed", some "s", some "txt", none⟩], [], 2, 1⟩ 1).db] ∧
    (simplify_document ⟨[⟨1, "old.pdf", "Analyzed", some "s", some "txt", none⟩], [], 2, 1⟩
        ⟨true, "a.pdf", none, none⟩ none (fun _ _ => ModelResult.success "SUM")).trace[0]?
      = some ⟨[⟨1, "old.pdf", "Analyzed", some "s", some "txt", none⟩],
          [⟨1, "TEXT_EXTRACT_FAIL", "a.pdf"⟩], 2, 2⟩ ∧
    (simplify_document ⟨[⟨1, "old.pdf", "Analyzed", some "s", some "txt", none⟩], [], 2, 1⟩
        ⟨true, "a.pdf", none, none⟩ (some "hello")
        (fun _ _ => ModelResult.success "SUM")).trace[0]?
      = some ⟨[⟨1, "old.pdf", "Analyzed", some "s", some "txt", none⟩],
          [⟨1, "UPLOAD_SUCCESS", "a.pdf"⟩], 2, 2⟩ ∧
    ∀ s ∈ (simplify_document ⟨[⟨1, "old.pdf", "Analyzed", some "s", some "txt", none⟩], [], 2, 1⟩
        ⟨true, "a.pdf", none, none⟩ (some "hello")
        (fun _ _ => ModelResult.success "SUM")).trace, ∀ ev ∈ s.events,
      ev.id = 2 →
      ∃ d ∈ s.documents, d.id = 2 ∧ d.summary.isSome = true :=
  C9_commit_order ⟨[⟨1, "old.pdf", "Analyzed", some "s", some "txt", none⟩], [], 2, 1⟩
    ⟨true, "a.pdf", none, none⟩ none "hello" (fun _ _ => ModelResult.success "SUM") 1
    ⟨1, "old.pdf", "Analyzed", some "s", some "txt", none⟩
    (by decide) rfl (by decide) (Or.inl rfl) (by decide) (by decide)

end LegalMind
